import Mathlib

/-!
Verification of `convertupload_headless.py` (averygoll/ConvertUpload).

Shallow embedding conventions:
* Python strings manipulated by the UI are embedded as `List Char`
  (a Python `str` is a sequence of code points).  String constants from
  the source appear as Lean string literals, converted with `.data`.
* Machine integers in the program never approach overflow ranges
  (ratings 0..5, percentages 0..100, counters), so they are embedded as
  `Nat` / `Int`.
* Fallible external calls are embedded as `Except`-valued parameters;
  `SystemExit` / `sys.exit` is an `Except.error` outcome.
* The tkinter event loop is embedded as a step function on an explicit
  application state, driven by a list of UI events.
-/

namespace ConvertUpload

/-- Characters stripped by Python's `str.strip()` with no argument
(ASCII whitespace; the exotic Unicode whitespace code points cannot be
produced by the kiosk's on-screen keyboards and are not modelled). -/
def isPyWs (c : Char) : Bool :=
  c == ' ' || c == '\t' || c == '\n' || c == '\r' || c == '\x0b' || c == '\x0c'

/-- Python `s.strip()`: drop leading and trailing whitespace. -/
def py_strip (l : List Char) : List Char :=
  ((l.dropWhile isPyWs).reverse.dropWhile isPyWs).reverse

/-- Python `s.isdigit()` restricted to ASCII digits: nonempty and all digits.
(`str.isdigit` also accepts some Unicode digit code points, which the
on-screen keypads of this program cannot produce.) -/
def py_isdigit (l : List Char) : Bool :=
  !l.isEmpty && l.all Char.isDigit

/-- Split a character list at its first `'@'`:
`firstAtSplit l = some (pre, post)` when `l = pre ++ '@' :: post` with
`pre` free of `'@'`; `none` when `l` has no `'@'`.  This is how the
regex fragment `[^@]+@` consumes its input: the greedy `[^@]+` cannot
cross an `'@'`, so the literal `'@'` it must reach is the first one. -/
def firstAtSplit : List Char → Option (List Char × List Char)
  | [] => none
  | c :: cs =>
    if c = '@' then some ([], cs)
    else
      match firstAtSplit cs with
      | some (pre, post) => some (c :: pre, post)
      | none => none

/-- Does position `j` of `l` hold a `'.'` that is immediately followed by a
character other than `'@'`?  (The tail `\.[^@]` of the e-mail regex,
of which only the first repetition of the final `[^@]+` matters for a
prefix match.) -/
def dotAt (l : List Char) (j : Nat) : Bool :=
  match l.drop j with
  | '.' :: ch :: _ => ch != '@'
  | _ => false

/-- The part of the e-mail regex after the `'@'`: some prefix of `l`
matches `[^@]+\.[^@]+`.  Backtracking over the position of the matched
dot turns this into: there is a position `j ≥ 1` holding a `'.'`, all
characters before it are non-`'@'`, and the character after it exists
and is non-`'@'`. -/
def domainOk (l : List Char) : Bool :=
  (List.range l.length).any fun j =>
    decide (1 ≤ j) && (l.take j).all (fun ch => ch != '@') && dotAt l j

/-- Source line 374: `is_valid_email = lambda e: re.match(r"[^@]+@[^@]+\.[^@]+", e)`.
`re.match` anchors only at the start, so this is a prefix match; the
match object is used for its truthiness only, embedded as `Bool`. -/
def is_valid_email (e : List Char) : Bool :=
  match firstAtSplit e with
  | some (pre, post) => !pre.isEmpty && domainOk post
  | none => false

/-- Source line 375: `is_valid_phone = lambda p: re.match(r"^\d{10}$", p)`:
exactly ten digits.  (`$` would also allow one trailing newline, but the
argument is always `.strip()`-ed first, and `\d` is restricted to ASCII
digits as for `py_isdigit`.) -/
def is_valid_phone (p : List Char) : Bool :=
  decide (p.length = 10) && p.all Char.isDigit

/-- Source lines 90-95: the `CARRIER_GATEWAYS` dict, in insertion order
(Python dicts preserve insertion order, and `.values()` iterates in it). -/
def CARRIER_GATEWAYS : List (String × String) :=
  [("ATT", "@txt.att.net"),
   ("Verizon", "@vtext.com"),
   ("TMobile", "@tmomail.net"),
   ("Sprint", "@messaging.sprint.com")]

/-- Source line 142: width of the console progress bar. -/
def BAR : Nat := 30

/-- Source line 145: `pct = max(0, min(100, int(pct)))`. -/
def clamp_pct (pct : Int) : Int := max 0 (min 100 pct)

/-- Source line 146: `filled = int(BAR * pct / 100)` after clamping.
For 0 ≤ pct ≤ 100 the float expression `30 * pct / 100` is the correctly
rounded quotient of integers ≤ 3000, so `int` truncation equals integer
floor division. -/
def filled_cells (pct : Int) : Nat := BAR * (clamp_pct pct).toNat / 100

/-- Source line 147: `barstr = "█" * filled + "·" * (BAR - filled)` —
the rendered bar of `show_progress`. -/
def show_progress (pct : Int) : String :=
  String.mk (List.replicate (filled_cells pct) '█' ++
             List.replicate (BAR - filled_cells pct) '·')

/-- Source lines 101-112: `locate_paths` checks `exe`, `dll`, `mods` in
that order against the file system (embedded as the predicate
`pathExists`) and raises `SystemExit` (embedded as `Except.error`, an
exit of the process) at the first missing one. -/
def locate_paths (pathExists : String → Bool) (exe dll mods : String) :
    Except String (String × String × String) :=
  if !pathExists exe then Except.error ("❌ Required file not found: " ++ exe)
  else if !pathExists dll then Except.error ("❌ Required file not found: " ++ dll)
  else if !pathExists mods then Except.error ("❌ Required file not found: " ++ mods)
  else Except.ok (exe, dll, mods)

/-- Communication effects a background worker can perform towards the UI
and its surroundings (transcribed from the bodies of `_run_conversion`,
lines 542-560, and `_start_upload`, lines 562-605). -/
inductive CommAction
  /-- Write of a plain (non-boolean, non-numeric) field, e.g. `self.converted`. -/
  | setField (name : String)
  /-- Write of a boolean completion flag, e.g. `self.conversion_done = True`. -/
  | setFlag (name : String)
  /-- Write of a numeric progress value, e.g. `self.upload_frac = frac`. -/
  | setFloat (name : String)
  /-- `self.root.after(delayMs, ...)`: scheduling a callback on the UI event loop. -/
  | scheduleUICallback (delayMs : Nat)
  /-- An external side effect (subprocesses, Drive API calls, file system). -/
  | externalCall (desc : String)
deriving DecidableEq

/-- How a worker body relates to the failure-policy taxonomy of the spec. -/
inductive WorkerOutcome
  /-- Ran to completion. -/
  | completed
  /-- Caught an exception, printed a diagnostic and `return`-ed: the
  pipeline is dropped without exiting the process and without retrying. -/
  | abandoned (diagnostic : String)
  /-- Exited the whole process (`sys.exit` / `SystemExit`). -/
  | exitedProcess (msg : String)
  /-- Retried the failed call after a delay. -/
  | retried
deriving DecidableEq

/-- Source lines 542-560, `_run_conversion`, as a function of the outcomes
of its two external calls (the second is never reached when the first
fails).  On `launch_resolve_headless` failure: `print(f'Error launching
Resolve: {e}', file=sys.stderr); return`.  On `headless_render` failure:
`print(f'Headless render failed: {e}', file=sys.stderr); return`.  On
success it trims the output, publishes `converted` and
`conversion_done`, restarts the secondary ffplay loops on the rendered
file, and schedules `_play` on the UI loop via `root.after(0, ...)`. -/
def run_conversion (launch : Except String Unit) (render : Except String String) :
    WorkerOutcome × List CommAction :=
  match launch with
  | Except.error e => (WorkerOutcome.abandoned ("Error launching Resolve: " ++ e), [])
  | Except.ok _ =>
    match render with
    | Except.error e => (WorkerOutcome.abandoned ("Headless render failed: " ++ e), [])
    | Except.ok _ =>
      (WorkerOutcome.completed,
       [CommAction.externalCall ("trim_to_duration"),
        CommAction.setField ("converted"),
        CommAction.setFlag ("conversion_done"),
        CommAction.externalCall ("terminate secondary ffplay loops"),
        CommAction.externalCall ("start secondary ffplay loops on rendered file"),
        CommAction.scheduleUICallback 0])

/-- Is a worker outcome one of the two failure responses the spec
allows (exit the process, or retry after a delay)? -/
def is_exit_or_retry : WorkerOutcome → Bool
  | WorkerOutcome.exitedProcess _ => true
  | WorkerOutcome.retried => true
  | _ => false

/-- Is the action a write of a polled boolean flag or numeric progress value? -/
def is_flag_or_float_write : CommAction → Bool
  | CommAction.setFlag _ => true
  | CommAction.setFloat _ => true
  | _ => false

/-- Is the action a direct scheduling of a UI callback? -/
def is_schedule_ui_callback : CommAction → Bool
  | CommAction.scheduleUICallback _ => true
  | _ => false

/-- One iteration's input to the chunk-upload loop of `_start_upload`
(lines 575-596): `req.next_chunk()` either raises, or returns a pair
`(status, resp)`.  `status` is embedded as the `Bool` of its truthiness;
`resp`, when present, is embedded by the value of `resp.get('id')`
(an `Option String`, since `get` may return `None`). -/
inductive ChunkResult
  | exc (msg : String)
  | ok (status : Bool) (resp : Option (Option String))
deriving DecidableEq

/-- Did this iteration deliver a response carrying a file ID? -/
def has_file_id : ChunkResult → Bool
  | ChunkResult.ok _ (some (some _)) => true
  | _ => false

/-- State of the `while fid is None` loop of `_start_upload`:
`fid`, the `attempt` counter, and the cumulative number of whole seconds
spent in `time.sleep(1)` calls of the `except` branch. -/
structure UploadLoopState where
  fid : Option String
  attempt : Nat
  sleep_seconds : Nat
deriving DecidableEq

/-- One iteration of the chunk loop (source lines 575-596).  With the
loop condition `fid is None`, an already-exited loop ignores further
input.  An exception is caught, `time.sleep(1)` runs, and the loop
continues; a `(status, resp)` return sets `fid = resp.get('id')` when
`resp` is truthy, else leaves it `None`. -/
def upload_step (s : UploadLoopState) (r : ChunkResult) : UploadLoopState :=
  if s.fid.isSome then s
  else
    match r with
    | ChunkResult.exc _ =>
      { s with attempt := s.attempt + 1, sleep_seconds := s.sleep_seconds + 1 }
    | ChunkResult.ok _ resp =>
      { s with attempt := s.attempt + 1,
               fid := match resp with
                      | some i => i
                      | none => none }

/-- The chunk loop run on a finite stream of iteration results, starting
from `fid = None`, `attempt = 0`. -/
def upload_run (rs : List ChunkResult) : UploadLoopState :=
  rs.foldl upload_step { fid := none, attempt := 0, sleep_seconds := 0 }

/-- UI-visible writes of one chunk-loop iteration: a truthy `status`
updates `upload_frac` and `upload_rem` (lines 580-585); a truthy
response sets `upload_frac = 1.0` and `upload_rem = 0` under `if resp:`
(lines 588-592), whether or not `resp.get('id')` returned an ID. -/
def upload_iter_actions : ChunkResult → List CommAction
  | ChunkResult.exc _ => []
  | ChunkResult.ok status resp =>
    (if status then [CommAction.setFloat ("upload_frac"), CommAction.setFloat ("upload_rem")] else []) ++
    (match resp with
     | some _ => [CommAction.setFloat ("upload_frac"), CommAction.setFloat ("upload_rem")]
     | none => [])

/-- After the loop (lines 597-605): set sharing permissions (its failure
is caught and only printed), publish `upload_link`, set `upload_done`. -/
def upload_post_actions : List CommAction :=
  [CommAction.externalCall ("drive.permissions.create"),
   CommAction.setField ("upload_link"),
   CommAction.setFlag ("upload_done")]

/-- Actions of the chunk loop itself on a finite stream: iterations run
until the first result carrying a file ID, after which the post-loop
actions fire. -/
def start_upload_loop_actions : List ChunkResult → List CommAction
  | [] => []
  | r :: rest =>
    upload_iter_actions r ++
    (if has_file_id r then upload_post_actions else start_upload_loop_actions rest)

/-- All communication actions of `_start_upload` (lines 562-605): the
straight-line setup calls, then the chunk loop. -/
def start_upload_actions (rs : List ChunkResult) : List CommAction :=
  [CommAction.externalCall ("build drive service"),
   CommAction.externalCall ("os.path.getsize"),
   CommAction.externalCall ("drive.files.create request")] ++
  start_upload_loop_actions rs

/-- Source lines 534-540, `_schedule_fake_progress`: while the render is
not done it updates the status label and re-arms itself after 1000 ms;
once `conversion_done` holds it stops polling.  The result is the delay
of the next poll, `none` when polling stops. -/
def schedule_fake_progress_next (conversion_done : Bool) : Option Nat :=
  if conversion_done then none else some 1000

/-- Source lines 632-638, `_update_upload_status`: while the upload is
not done it renders `upload_frac` / `upload_rem` and re-arms itself
after 1000 ms; once `upload_done` holds it stops polling. -/
def update_upload_status_next (upload_done : Bool) : Option Nat :=
  if upload_done then none else some 1000

/-- The actions of the module top level that matter to the double-launch
guard (source lines 294-312 and 640-643). -/
inductive TopAction
  /-- `socket.socket(...).bind(('localhost', 65432))` succeeded. -/
  | bindGuardPort (host : String) (port : Nat)
  /-- `import vlc`, monitor enumeration (lines 301-303). -/
  | importVlcAndEnumerate
  /-- `start_secondary_loops(INPUT_VIDEO)` (line 312). -/
  | startSecondaryLoops
  /-- `VideoConverterApp(root)` construction (line 642). -/
  | constructApp
  /-- `root.mainloop()` (line 643). -/
  | mainloop
deriving DecidableEq

/-- Source lines 294-298: the module binds localhost TCP port 65432; an
`OSError` from `bind` runs `sys.exit('Already running.')`, so nothing
after line 298 executes.  On success the remaining top level runs. -/
def module_toplevel (bindRaisesOSError : Bool) : Except String (List TopAction) :=
  if bindRaisesOSError then Except.error ("Already running.")
  else Except.ok
    [TopAction.bindGuardPort ("localhost") 65432,
     TopAction.importVlcAndEnumerate,
     TopAction.startSecondaryLoops,
     TopAction.constructApp,
     TopAction.mainloop]

/-- The wizard screens, in the order `_build_ui` / screen-swapping shows
them: `_show_email_ui` (line 440), `_show_phone_ui` (line 471),
`_show_rating_ui` (line 500), and the uploading screen built by
`_on_send` (line 607). -/
inductive Screen
  | email
  | phone
  | rating
  | sending
deriving DecidableEq

/-- The session-scoped fields of `VideoConverterApp` that the wizard and
the upload guard touch (`__init__`, lines 398-406), plus the current
screen and the enabled state of the `Send Clip` button. -/
structure AppState where
  screen : Screen
  email_var : List Char
  phone_var : List Char
  recipient_email : Option (List Char)
  recipient_sms_numbers : List (List Char)
  rating : Nat
  conversion_done : Bool
  send_btn_enabled : Bool
  /-- whether `_on_send` has spawned the `_start_upload` thread (line 615). -/
  upload_started : Bool
deriving DecidableEq

/-- Initial state built by `__init__`: email screen showing, empty
fields, `conversion_done = False`, `rating = 0`, no recipients, no
upload. -/
def init : AppState :=
  { screen := Screen.email
    email_var := []
    phone_var := []
    recipient_email := none
    recipient_sms_numbers := []
    rating := 0
    conversion_done := false
    send_btn_enabled := false
    upload_started := false }

/-- Events the controller reacts to: the on-screen keyboard and button
callbacks, plus the render worker finishing (`_run_conversion` setting
`conversion_done = True`, line 555).  Star button `i` calls
`_set_rating(i+1)` (line 506). -/
inductive UIEvent
  | email_key (k : List Char)
  | email_next
  | phone_key (k : List Char)
  | phone_next
  | set_rating (i : Fin 5)
  | send
  | conversion_finished
deriving DecidableEq

/-- Source lines 455-462, `_email_key`: `Backspace` drops the last
character; a provider shortcut appends `'@' + k + '.com'` only when no
`'@'` is present yet; every other key (including a shortcut pressed when
an `'@'` is already present) is appended literally. -/
def email_key_fn (cur k : List Char) : List Char :=
  if k = ("Backspace").data then cur.dropLast
  else if (k = ("gmail").data ∨ k = ("yahoo").data ∨ k = ("outlook").data) ∧ ¬ cur.contains '@' then
    cur ++ '@' :: (k ++ (".com").data)
  else cur ++ k

/-- Source lines 484-491, `_phone_key`: `Del` clears the field, `Back`
drops the last character, and a digit key is appended only while the
field holds fewer than ten characters; anything else is ignored. -/
def phone_key_fn (cur k : List Char) : List Char :=
  if k = ("Del").data then []
  else if k = ("Back").data then cur.dropLast
  else if cur.length < 10 ∧ py_isdigit k then cur ++ k
  else cur

/-- The twelve keys of the on-screen phone keypad (line 477):
`nums = [['1','2','3'],['4','5','6'],['7','8','9'],['Back','0','Del']]`. -/
def PHONE_KEYPAD_KEYS : List (List Char) :=
  [("1").data, ("2").data, ("3").data,
   ("4").data, ("5").data, ("6").data,
   ("7").data, ("8").data, ("9").data,
   ("Back").data, ("0").data, ("Del").data]

/-- One UI-thread step of the controller.  A widget's callback can only
fire while the widget exists, and each screen's widgets are destroyed by
`_clear_below_status` when the next screen is shown, so events of other
screens are no-ops.  The transitions transcribe `_email_key`,
`_email_next` (464-469), `_phone_key`, `_phone_next` (493-498),
`_set_rating` (512-517), `_on_send` (607-615: it returns unless
`self.conversion_done and self.rating` is truthy) and the render
worker's `self.conversion_done = True` (555).  Note `_on_send` performs
its own guard check, so no assumption about the button's enabled state
is needed (tkinter delivers widget-level `bind` events even to a
disabled button). -/
def step (s : AppState) (ev : UIEvent) : AppState :=
  match ev with
  | UIEvent.email_key k =>
    if s.screen = Screen.email then { s with email_var := email_key_fn s.email_var k } else s
  | UIEvent.email_next =>
    if s.screen = Screen.email then
      if is_valid_email (py_strip s.email_var) then
        { s with recipient_email := some (py_strip s.email_var), screen := Screen.phone }
      else s
    else s
  | UIEvent.phone_key k =>
    if s.screen = Screen.phone then { s with phone_var := phone_key_fn s.phone_var k } else s
  | UIEvent.phone_next =>
    if s.screen = Screen.phone then
      if is_valid_phone (py_strip s.phone_var) then
        { s with recipient_sms_numbers :=
                   CARRIER_GATEWAYS.map (fun gw => py_strip s.phone_var ++ gw.2.data),
                 screen := Screen.rating,
                 send_btn_enabled := false }
      else s
    else s
  | UIEvent.set_rating i =>
    if s.screen = Screen.rating then
      if s.conversion_done ∧ 0 < i.1 + 1 then
        { s with rating := i.1 + 1, send_btn_enabled := true }
      else { s with rating := i.1 + 1 }
    else s
  | UIEvent.send =>
    if s.screen = Screen.rating then
      if s.conversion_done ∧ s.rating ≠ 0 then
        { s with screen := Screen.sending, upload_started := true }
      else s
    else s
  | UIEvent.conversion_finished => { s with conversion_done := true }

/-- A whole UI session: fold the events from the initial state. -/
def run (events : List UIEvent) : AppState :=
  events.foldl step init

/-- The state invariants maintained by every reachable state. -/
def Inv (s : AppState) : Prop :=
  (s.upload_started = true → s.conversion_done = true ∧ 0 < s.rating) ∧
  (s.send_btn_enabled = true → s.conversion_done = true ∧ 0 < s.rating) ∧
  (s.screen ≠ Screen.email →
     ∃ e, s.recipient_email = some e ∧ is_valid_email e = true) ∧
  ((s.screen = Screen.rating ∨ s.screen = Screen.sending) →
     ∃ p, is_valid_phone p = true ∧
       s.recipient_sms_numbers = CARRIER_GATEWAYS.map (fun gw => p ++ gw.2.data))

/-- A session that walks the whole wizard: types `a`, uses the `gmail`
shortcut, advances, types ten `1` digits, advances, sees the render
finish, rates one star, and sends. -/
def demo_events : List UIEvent :=
  [UIEvent.email_key (("a").data), UIEvent.email_key (("gmail").data), UIEvent.email_next,
   UIEvent.phone_key (("1").data), UIEvent.phone_key (("1").data), UIEvent.phone_key (("1").data),
   UIEvent.phone_key (("1").data), UIEvent.phone_key (("1").data), UIEvent.phone_key (("1").data),
   UIEvent.phone_key (("1").data), UIEvent.phone_key (("1").data), UIEvent.phone_key (("1").data),
   UIEvent.phone_key (("1").data),
   UIEvent.phone_next, UIEvent.conversion_finished, UIEvent.set_rating 0, UIEvent.send]

/-- A state sitting on the phone screen with a full valid number typed. -/
def phone_demo_state : AppState :=
  { init with screen := Screen.phone, phone_var := ("0123456789").data }

/-! Helper lemmas. -/

/-- A digit character is not Python whitespace. -/
theorem digit_not_pyws (c : Char) (h : c.isDigit = true) : isPyWs c = false := by
  rw [← Bool.not_eq_true]
  intro hw
  simp only [isPyWs, Bool.or_eq_true, beq_iff_eq] at hw
  rcases hw with ((((rfl | rfl) | rfl) | rfl) | rfl) | rfl <;> exact absurd h (by decide)

/-- dropWhile whitespace is the identity on all-digit lists. -/
theorem dropWhile_ws_of_digits (l : List Char) (h : l.all Char.isDigit = true) :
    l.dropWhile isPyWs = l := by
  cases l with
  | nil => rfl
  | cons c cs =>
    have hc : c.isDigit = true := by
      rw [List.all_cons, Bool.and_eq_true] at h; exact h.1
    rw [List.dropWhile_cons, digit_not_pyws c hc]
    simp

/-- Stripping is the identity on all-digit strings. -/
theorem py_strip_of_digits (l : List Char) (h : l.all Char.isDigit = true) :
    py_strip l = l := by
  unfold py_strip
  rw [dropWhile_ws_of_digits l h,
      dropWhile_ws_of_digits l.reverse (by rw [List.all_reverse]; exact h),
      List.reverse_reverse]

/-- firstAtSplit splits exactly at the first at sign. -/
theorem firstAtSplit_append (a m : List Char) (haf : ∀ x ∈ a, x ≠ '@') :
    firstAtSplit (a ++ '@' :: m) = some (a, m) := by
  induction a with
  | nil => simp [firstAtSplit]
  | cons x xs ih =>
    have hx : x ≠ '@' := haf x (List.mem_cons_self _ _)
    rw [List.cons_append, firstAtSplit, if_neg hx,
        ih (fun y hy => haf y (List.mem_cons_of_mem _ hy))]

/-- A domain of the shape `b ++ '.' :: c :: rest` with `b` nonempty and
at-free and `c ≠ '@'` passes `domainOk`: the dot at position `b.length`
witnesses the regex tail. -/
theorem domainOk_of_shape (b : List Char) (c : Char) (rest : List Char)
    (hb : b ≠ []) (hbf : ∀ x ∈ b, x ≠ '@') (hc : c ≠ '@') :
    domainOk (b ++ '.' :: c :: rest) = true := by
  unfold domainOk
  rw [List.any_eq_true]
  refine ⟨b.length, ?_, ?_⟩
  · rw [List.mem_range, List.length_append, List.length_cons, List.length_cons]
    omega
  · have hlen : 1 ≤ b.length := by
      cases b with
      | nil => exact absurd rfl hb
      | cons _ _ => simp
    have htake : (b ++ '.' :: c :: rest).take b.length = b := List.take_left ..
    have hdot : dotAt (b ++ '.' :: c :: rest) b.length = true := by
      unfold dotAt
      rw [List.drop_left]
      simp [hc]
    rw [htake, hdot]
    simp only [Bool.and_true]
    rw [Bool.and_eq_true, decide_eq_true_iff, List.all_eq_true]
    exact ⟨hlen, fun x hx => by rw [bne_iff_ne]; exact hbf x hx⟩

/-! Claim C9. -/

/-- C9 counterexample: the string `a@b.@` has exactly the prefix shape the
claim describes — one-or-more non-at characters (`a`), an at sign,
one-or-more non-at characters (`b`), a dot, then at least one more
character (here `'@'`) — yet `is_valid_email` rejects it, because the
regex requires the character after the dot to be a non-at character. -/
theorem email_tail_needs_non_at :
    is_valid_email (("a@b.@").data) = false ∧
    ("a@b.@").data = ("a").data ++ '@' :: (("b").data ++ '.' :: '@' :: []) ∧
    ("a").data ≠ [] ∧ (("a").data).all (fun x => x != '@') = true ∧
    ("b").data ≠ [] ∧ (("b").data).all (fun x => x != '@') = true := by
  decide

/-- C9 (amended): `is_valid_email` is a prefix match, not a full match — it
accepts every string whose prefix is one-or-more non-at characters, an
at sign, one-or-more non-at characters, a dot, then at least one more
**non-at** character, whatever follows; in particular `a@b.c x@y`, which
contains a space and a further at sign after such a prefix, is accepted,
and `_email_next` stores it verbatim as the recipient address. -/
theorem email_accepts_any_suffix_after_valid_head :
    (∀ (a b rest : List Char) (c : Char),
       a ≠ [] → (∀ x ∈ a, x ≠ '@') → b ≠ [] → (∀ x ∈ b, x ≠ '@') → c ≠ '@' →
       is_valid_email (a ++ '@' :: (b ++ '.' :: c :: rest)) = true) ∧
    is_valid_email (("a@b.c x@y").data) = true ∧
    (step { init with email_var := ("a@b.c x@y").data } UIEvent.email_next).recipient_email
      = some (("a@b.c x@y").data) ∧
    (step { init with email_var := ("a@b.c x@y").data } UIEvent.email_next).screen
      = Screen.phone := by
  refine ⟨?_, by decide, by decide, by decide⟩
  intro a b rest c ha haf hb hbf hc
  unfold is_valid_email
  rw [firstAtSplit_append a _ haf]
  show (!a.isEmpty && domainOk (b ++ '.' :: c :: rest)) = true
  rw [domainOk_of_shape b c rest hb hbf hc]
  cases a with
  | nil => exact absurd rfl ha
  | cons _ _ => rfl

/-- Witness for the amended C9: the accepted shape instantiated at
`x@y.z @`, whose suffix after the matched head is a space and an at. -/
theorem email_accepts_any_suffix_witness :
    is_valid_email (("x").data ++ '@' :: ((("y").data) ++ '.' :: 'z' :: (" @").data)) = true :=
  email_accepts_any_suffix_after_valid_head.1 (("x").data) (("y").data) ((" @").data) 'z'
    (by decide) (by decide) (by decide) (by decide) (by decide)

/-! Claim C10. -/

/-- C10: `show_progress` is total on every integer input — the percentage
is clamped to `[0, 100]`, the number of filled cells lies in `[0, 30]`,
and the rendered bar string always has exactly 30 glyph characters. -/
theorem show_progress_total (pct : Int) :
    0 ≤ clamp_pct pct ∧ clamp_pct pct ≤ 100 ∧
    filled_cells pct ≤ 30 ∧ (show_progress pct).length = 30 := by
  have h0 : 0 ≤ clamp_pct pct := le_max_left 0 _
  have h1 : clamp_pct pct ≤ 100 :=
    max_le (by norm_num) (min_le_left _ _)
  have h2 : filled_cells pct ≤ 30 := by
    unfold filled_cells BAR
    have hle : (clamp_pct pct).toNat ≤ 100 := by omega
    calc 30 * (clamp_pct pct).toNat / 100 ≤ 30 * 100 / 100 :=
          Nat.div_le_div_right (Nat.mul_le_mul_left _ hle)
      _ = 30 := by norm_num
  refine ⟨h0, h1, h2, ?_⟩
  show (List.replicate (filled_cells pct) '█' ++
        List.replicate (BAR - filled_cells pct) '·').length = 30
  rw [List.length_append, List.length_replicate, List.length_replicate]
  unfold BAR
  omega

/-! Reachability invariant of the wizard state machine. -/

/-- The initial state satisfies the invariant. -/
theorem inv_init : Inv init :=
  ⟨fun h => absurd h (by decide),
   fun h => absurd h (by decide),
   fun h => absurd rfl h,
   fun h => by rcases h with h | h <;> exact Screen.noConfusion h⟩

/-- Every step preserves the invariant. -/
theorem inv_step (s : AppState) (ev : UIEvent) (h : Inv s) : Inv (step s ev) := by
  obtain ⟨h1, h2, h3, h4⟩ := h
  cases ev with
  | email_key k =>
    simp only [step]
    split
    · exact ⟨h1, h2, h3, h4⟩
    · exact ⟨h1, h2, h3, h4⟩
  | email_next =>
    simp only [step]
    split
    · split
      · rename_i hval
        refine ⟨h1, h2, fun _ => ⟨py_strip s.email_var, rfl, hval⟩, fun hc => ?_⟩
        rcases hc with hc | hc <;> exact Screen.noConfusion hc
      · exact ⟨h1, h2, h3, h4⟩
    · exact ⟨h1, h2, h3, h4⟩
  | phone_key k =>
    simp only [step]
    split
    · exact ⟨h1, h2, h3, h4⟩
    · exact ⟨h1, h2, h3, h4⟩
  | phone_next =>
    simp only [step]
    split
    · split
      · rename_i hscr hval
        refine ⟨h1, fun hb => Bool.noConfusion hb, ?_, ?_⟩
        · intro _
          exact h3 (by rw [hscr]; exact fun he => Screen.noConfusion he)
        · intro _
          exact ⟨py_strip s.phone_var, hval, rfl⟩
      · exact ⟨h1, h2, h3, h4⟩
    · exact ⟨h1, h2, h3, h4⟩
  | set_rating i =>
    simp only [step]
    split
    · rename_i hscr
      split
      · rename_i hcond
        exact ⟨fun hu => ⟨(h1 hu).1, Nat.succ_pos _⟩,
               fun _ => ⟨hcond.1, Nat.succ_pos _⟩,
               fun he => h3 (by rw [hscr]; exact fun hx => Screen.noConfusion hx),
               fun hc => h4 (by rw [hscr]; exact Or.inl rfl)⟩
      · exact ⟨fun hu => ⟨(h1 hu).1, Nat.succ_pos _⟩,
               fun hb => ⟨(h2 hb).1, Nat.succ_pos _⟩,
               fun he => h3 (by rw [hscr]; exact fun hx => Screen.noConfusion hx),
               fun hc => h4 (by rw [hscr]; exact Or.inl rfl)⟩
    · exact ⟨h1, h2, h3, h4⟩
  | send =>
    simp only [step]
    split
    · rename_i hscr
      split
      · rename_i hcond
        exact ⟨fun _ => ⟨hcond.1, Nat.pos_of_ne_zero hcond.2⟩,
               fun hb => h2 hb,
               fun _ => h3 (by rw [hscr]; exact fun hx => Screen.noConfusion hx),
               fun _ => h4 (by rw [hscr]; exact Or.inl rfl)⟩
      · exact ⟨h1, h2, h3, h4⟩
    · exact ⟨h1, h2, h3, h4⟩
  | conversion_finished =>
    exact ⟨fun hu => ⟨rfl, (h1 hu).2⟩, fun hb => ⟨rfl, (h2 hb).2⟩, h3, h4⟩

/-- The invariant holds along any fold of steps. -/
theorem inv_foldl (events : List UIEvent) :
    ∀ s : AppState, Inv s → Inv (events.foldl step s) := by
  induction events with
  | nil => intro s h; exact h
  | cons ev evs ih =>
    intro s h
    rw [List.foldl_cons]
    exact ih _ (inv_step s ev h)

/-- Every reachable state satisfies the invariant. -/
theorem inv_run (events : List UIEvent) : Inv (run events) :=
  inv_foldl events init inv_init

/-! Claim C1. -/

/-- C1: the upload never begins before both the render-complete flag and a
nonzero rating are true — in every state reachable by a sequence of UI
events, a started upload implies `conversion_done = True` and
`rating > 0`, the `Send Clip` button is enabled only under this
condition, and `_on_send` leaves the upload un-started otherwise. -/
theorem upload_requires_render_and_rating :
    (∀ events : List UIEvent,
       ((run events).upload_started = true →
          (run events).conversion_done = true ∧ 0 < (run events).rating) ∧
       ((run events).send_btn_enabled = true →
          (run events).conversion_done = true ∧ 0 < (run events).rating)) ∧
    (∀ s : AppState, ¬(s.conversion_done = true ∧ 0 < s.rating) →
       step s UIEvent.send = s) := by
  constructor
  · intro events
    exact ⟨(inv_run events).1, (inv_run events).2.1⟩
  · intro s hs
    simp only [step]
    split
    · split
      · rename_i hc
        exact absurd ⟨hc.1, Nat.pos_of_ne_zero hc.2⟩ hs
      · rfl
    · rfl

/-- Witness for C1 at the demo session (upload started there) and at the
initial state (send is a no-op there). -/
theorem upload_requires_render_and_rating_witness :
    ((run demo_events).conversion_done = true ∧ 0 < (run demo_events).rating) ∧
    step init UIEvent.send = init :=
  ⟨(upload_requires_render_and_rating.1 demo_events).1 (by decide),
   upload_requires_render_and_rating.2 init (by decide)⟩

/-! Claim C6. -/

/-- C6: the UI is a linear wizard email → phone → rating → send — any
reachable state past the email screen stores a validated recipient
address, any reachable state at or past the rating screen stores gateway
addresses built from a validated phone number, failing either validation
leaves the state entirely unchanged, and the send action does nothing
away from the rating screen. -/
theorem wizard_linear_flow :
    (∀ events : List UIEvent,
       ((run events).screen = Screen.phone ∨ (run events).screen = Screen.rating ∨
          (run events).screen = Screen.sending →
          ∃ e, (run events).recipient_email = some e ∧ is_valid_email e = true) ∧
       ((run events).screen = Screen.rating ∨ (run events).screen = Screen.sending →
          ∃ p, is_valid_phone p = true ∧
            (run events).recipient_sms_numbers =
              CARRIER_GATEWAYS.map (fun gw => p ++ gw.2.data))) ∧
    (∀ s : AppState, is_valid_email (py_strip s.email_var) = false →
       step s UIEvent.email_next = s) ∧
    (∀ s : AppState, is_valid_phone (py_strip s.phone_var) = false →
       step s UIEvent.phone_next = s) ∧
    (∀ s : AppState, s.screen ≠ Screen.rating → step s UIEvent.send = s) := by
  refine ⟨?_, ?_, ?_, ?_⟩
  · intro events
    constructor
    · intro hor
      refine (inv_run events).2.2.1 ?_
      rcases hor with h | h | h <;> rw [h] <;> exact fun hx => Screen.noConfusion hx
    · exact (inv_run events).2.2.2
  · intro s hval
    simp only [step]
    split
    · split
      · rename_i hv
        rw [hval] at hv
        exact absurd hv (by decide)
      · rfl
    · rfl
  · intro s hval
    simp only [step]
    split
    · split
      · rename_i hv
        rw [hval] at hv
        exact absurd hv (by decide)
      · rfl
    · rfl
  · intro s hscr
    simp only [step]
    split
    · rename_i h
      exact absurd h hscr
    · rfl

/-- Witness for C6: the demo session ends past the rating screen with a
validated stored address, and at the initial state each failing action
is a no-op. -/
theorem wizard_linear_flow_witness :
    (∃ e, (run demo_events).recipient_email = some e ∧ is_valid_email e = true) ∧
    step init UIEvent.email_next = init ∧
    step init UIEvent.phone_next = init ∧
    step init UIEvent.send = init :=
  ⟨(wizard_linear_flow.1 demo_events).1 (by decide),
   wizard_linear_flow.2.1 init (by decide),
   wizard_linear_flow.2.2.1 init (by decide),
   wizard_linear_flow.2.2.2 init (by decide)⟩

/-! Claim C7. -/

/-- C7: for every phone string passing validation, confirming the phone
screen sets `recipient_sms_numbers` to exactly four addresses, the
number concatenated with the four carrier gateway suffixes in the
dictionary's insertion order, and advances to the rating screen. -/
theorem phone_next_sets_four_gateways (s : AppState)
    (hscr : s.screen = Screen.phone)
    (hval : is_valid_phone (py_strip s.phone_var) = true) :
    (step s UIEvent.phone_next).recipient_sms_numbers =
      [py_strip s.phone_var ++ ("@txt.att.net").data,
       py_strip s.phone_var ++ ("@vtext.com").data,
       py_strip s.phone_var ++ ("@tmomail.net").data,
       py_strip s.phone_var ++ ("@messaging.sprint.com").data] ∧
    ((step s UIEvent.phone_next).recipient_sms_numbers).length = 4 ∧
    (step s UIEvent.phone_next).screen = Screen.rating := by
  refine ⟨?_, ?_, ?_⟩ <;> simp [step, hscr, hval, CARRIER_GATEWAYS]

/-- Witness for C7 at the number `0123456789`. -/
theorem phone_next_sets_four_gateways_witness :
    (step phone_demo_state UIEvent.phone_next).recipient_sms_numbers =
      [py_strip phone_demo_state.phone_var ++ ("@txt.att.net").data,
       py_strip phone_demo_state.phone_var ++ ("@vtext.com").data,
       py_strip phone_demo_state.phone_var ++ ("@tmomail.net").data,
       py_strip phone_demo_state.phone_var ++ ("@messaging.sprint.com").data] ∧
    ((step phone_demo_state UIEvent.phone_next).recipient_sms_numbers).length = 4 ∧
    (step phone_demo_state UIEvent.phone_next).screen = Screen.rating :=
  phone_next_sets_four_gateways phone_demo_state rfl (by decide)

/-! Claim C8. -/

/-- Every key of the on-screen phone keypad is `Del`, `Back`, or a
single digit. -/
theorem keypad_key_classify :
    ∀ k ∈ PHONE_KEYPAD_KEYS,
      k = ("Del").data ∨ k = ("Back").data ∨ (py_isdigit k = true ∧ k.length = 1) := by
  decide

/-- One keypad key preserves digits-only and length at most ten. -/
theorem phone_key_fn_inv (cur k : List Char)
    (hk : k ∈ PHONE_KEYPAD_KEYS)
    (h1 : cur.all Char.isDigit = true) (h2 : cur.length ≤ 10) :
    (phone_key_fn cur k).all Char.isDigit = true ∧ (phone_key_fn cur k).length ≤ 10 := by
  rcases keypad_key_classify k hk with h | h | ⟨hd, hl⟩
  · subst h
    simp [phone_key_fn]
  · subst h
    rw [phone_key_fn, if_neg (by decide), if_pos rfl]
    constructor
    · rw [List.all_eq_true] at h1 ⊢
      exact fun x hx => h1 x ((List.dropLast_sublist cur).subset hx)
    · rw [List.length_dropLast]
      omega
  · rw [phone_key_fn,
        if_neg (fun he => by rw [he] at hl; exact absurd hl (by decide)),
        if_neg (fun he => by rw [he] at hl; exact absurd hl (by decide))]
    by_cases hc : cur.length < 10
    · rw [if_pos ⟨hc, hd⟩]
      constructor
      · rw [List.all_append, h1, Bool.true_and]
        unfold py_isdigit at hd
        rw [Bool.and_eq_true] at hd
        exact hd.2
      · rw [List.length_append]
        omega
    · rw [if_neg (fun hcc => hc hcc.1)]
      exact ⟨h1, h2⟩

/-- The keypad invariant is preserved along any fold of keypad keys. -/
theorem phone_fold_inv (keys : List (List Char)) :
    ∀ cur : List Char, (∀ k ∈ keys, k ∈ PHONE_KEYPAD_KEYS) →
      cur.all Char.isDigit = true → cur.length ≤ 10 →
      (keys.foldl phone_key_fn cur).all Char.isDigit = true ∧
      (keys.foldl phone_key_fn cur).length ≤ 10 := by
  induction keys with
  | nil => exact fun cur _ h1 h2 => ⟨h1, h2⟩
  | cons k ks ih =>
    intro cur hk h1 h2
    rw [List.foldl_cons]
    have h' := phone_key_fn_inv cur k (hk k (List.mem_cons_self _ _)) h1 h2
    exact ih _ (fun x hx => hk x (List.mem_cons_of_mem _ hx)) h'.1 h'.2

/-- C8: under any sequence of on-screen keypad events starting from the
empty field, the phone field contains only digits and has length at most
ten, and the `Next` validation (of the stripped field) succeeds exactly
when the field is full. -/
theorem phone_field_always_digits (keys : List (List Char))
    (hk : ∀ k ∈ keys, k ∈ PHONE_KEYPAD_KEYS) :
    (keys.foldl phone_key_fn []).all Char.isDigit = true ∧
    (keys.foldl phone_key_fn []).length ≤ 10 ∧
    (is_valid_phone (py_strip (keys.foldl phone_key_fn [])) = true ↔
       (keys.foldl phone_key_fn []).length = 10) := by
  obtain ⟨h1, h2⟩ := phone_fold_inv keys [] hk rfl (by decide)
  refine ⟨h1, h2, ?_⟩
  rw [py_strip_of_digits _ h1]
  unfold is_valid_phone
  rw [h1, Bool.and_true]
  exact decide_eq_true_iff

/-- Witness for C8: ten presses of the `1` key produce a full, valid
field. -/
theorem phone_field_always_digits_witness :
    ((List.replicate 10 (("1").data)).foldl phone_key_fn []).all Char.isDigit = true ∧
    ((List.replicate 10 (("1").data)).foldl phone_key_fn []).length ≤ 10 ∧
    (is_valid_phone (py_strip ((List.replicate 10 (("1").data)).foldl phone_key_fn [])) = true ↔
       ((List.replicate 10 (("1").data)).foldl phone_key_fn []).length = 10) :=
  phone_field_always_digits (List.replicate 10 (("1").data)) (by decide)

/-! Claim C2. -/

/-- C2 counterexample: when `headless_render` raises, `_run_conversion`
prints a diagnostic and returns — the pipeline is abandoned, which is
neither of the two outcomes (exit the process, retry after a delay) the
claim allows for an external call's failure. -/
theorem render_failure_abandons_pipeline :
    (run_conversion (Except.ok ()) (Except.error ("boom"))).1 =
      WorkerOutcome.abandoned ("Headless render failed: boom") ∧
    is_exit_or_retry (run_conversion (Except.ok ()) (Except.error ("boom"))).1 = false := by
  constructor
  · rfl
  · rfl

/-- C2 (amended): external calls are wrapped in broad catches that print a
diagnostic; the startup path checks exit the process and the chunk
upload retries after a one-second delay, but the render worker's two
catches print and return, abandoning the pipeline without exiting or
retrying. -/
theorem error_policy_per_call_site :
    (∀ (pathExists : String → Bool) (exe dll mods : String),
       pathExists exe = false →
       locate_paths pathExists exe dll mods =
         Except.error ("❌ Required file not found: " ++ exe)) ∧
    (∀ (s : UploadLoopState) (msg : String), s.fid = none →
       (upload_step s (ChunkResult.exc msg)).fid = none ∧
       (upload_step s (ChunkResult.exc msg)).sleep_seconds = s.sleep_seconds + 1) ∧
    (∀ (e : String) (r : Except String String),
       run_conversion (Except.error e) r =
         (WorkerOutcome.abandoned ("Error launching Resolve: " ++ e), [])) ∧
    (∀ e : String,
       run_conversion (Except.ok ()) (Except.error e) =
         (WorkerOutcome.abandoned ("Headless render failed: " ++ e), [])) := by
  refine ⟨?_, ?_, ?_, ?_⟩
  · intro pathExists exe dll mods h
    simp [locate_paths, h]
  · intro s msg h
    simp [upload_step, h]
  · intro e r
    rfl
  · intro e
    rfl

/-- Witness for the amended C2 at a missing executable and at the initial
loop state. -/
theorem error_policy_per_call_site_witness :
    locate_paths (fun _ => false) ("exe") ("dll") ("mods") =
      Except.error ("❌ Required file not found: exe") ∧
    ((upload_step { fid := none, attempt := 0, sleep_seconds := 0 }
        (ChunkResult.exc ("x"))).fid = none ∧
     (upload_step { fid := none, attempt := 0, sleep_seconds := 0 }
        (ChunkResult.exc ("x"))).sleep_seconds = 0 + 1) :=
  ⟨error_policy_per_call_site.1 (fun _ => false) ("exe") ("dll") ("mods") rfl,
   error_policy_per_call_site.2.1 { fid := none, attempt := 0, sleep_seconds := 0 }
     ("x") rfl⟩

/-! Claim C3. -/

/-- While no file ID has arrived, processing results without an ID keeps
the loop running, and every processed result counts one attempt. -/
theorem upload_fold_no_id (rs : List ChunkResult) :
    ∀ s : UploadLoopState, s.fid = none → (∀ r ∈ rs, has_file_id r = false) →
      (rs.foldl upload_step s).fid = none ∧
      (rs.foldl upload_step s).attempt = s.attempt + rs.length := by
  induction rs with
  | nil => exact fun s h _ => ⟨h, by simp⟩
  | cons r rest ih =>
    intro s h hall
    have hr := hall r (List.mem_cons_self _ _)
    have hstep : (upload_step s r).fid = none ∧ (upload_step s r).attempt = s.attempt + 1 := by
      cases r with
      | exc m => simp [upload_step, h]
      | ok st resp =>
        cases resp with
        | none => simp [upload_step, h]
        | some o =>
          cases o with
          | none => simp [upload_step, h]
          | some i => exact absurd hr (by simp [has_file_id])
    rw [List.foldl_cons]
    obtain ⟨ha, hb⟩ := ih (upload_step s r) hstep.1 (fun x hx => hall x (List.mem_cons_of_mem _ hx))
    refine ⟨ha, ?_⟩
    rw [hb, hstep.2, List.length_cons]
    omega

/-- If the loop has exited, some processed result carried a file ID. -/
theorem upload_fold_some_id (rs : List ChunkResult) :
    ∀ s : UploadLoopState, s.fid = none → ((rs.foldl upload_step s).fid).isSome = true →
      ∃ r ∈ rs, has_file_id r = true := by
  induction rs with
  | nil =>
    intro s h hs
    rw [List.foldl_nil, h] at hs
    exact absurd hs (by decide)
  | cons r rest ih =>
    intro s h hs
    rw [List.foldl_cons] at hs
    by_cases hr : has_file_id r = true
    · exact ⟨r, List.mem_cons_self _ _, hr⟩
    · have h1 : (upload_step s r).fid = none := by
        cases r with
        | exc m => simp [upload_step, h]
        | ok st resp =>
          cases resp with
          | none => simp [upload_step, h]
          | some o =>
            cases o with
            | none => simp [upload_step, h]
            | some i => exact absurd (by simp [has_file_id]) hr
      obtain ⟨x, hx, hxx⟩ := ih _ h1 hs
      exact ⟨x, List.mem_cons_of_mem _ hx, hxx⟩

/-- C3: the chunk-upload loop's retry policy is exactly catch, sleep one
second, retry indefinitely — an exception while the loop runs adds one
one-second sleep, one attempt, and leaves the loop running; a stream
with no file ID keeps the loop running forever (one attempt per result,
never exiting); and the loop exits only once a response carrying a file
ID has been received. -/
theorem upload_retry_until_file_id :
    (∀ (s : UploadLoopState) (msg : String), s.fid = none →
       (upload_step s (ChunkResult.exc msg)).fid = none ∧
       (upload_step s (ChunkResult.exc msg)).sleep_seconds = s.sleep_seconds + 1 ∧
       (upload_step s (ChunkResult.exc msg)).attempt = s.attempt + 1) ∧
    (∀ rs : List ChunkResult, (∀ r ∈ rs, has_file_id r = false) →
       (upload_run rs).fid = none ∧ (upload_run rs).attempt = rs.length) ∧
    (∀ rs : List ChunkResult, ((upload_run rs).fid).isSome = true →
       ∃ r ∈ rs, has_file_id r = true) := by
  refine ⟨?_, ?_, ?_⟩
  · intro s msg h
    simp [upload_step, h]
  · intro rs hall
    have h := upload_fold_no_id rs { fid := none, attempt := 0, sleep_seconds := 0 } rfl hall
    exact ⟨h.1, by rw [upload_run, h.2]; simp⟩
  · intro rs hs
    exact upload_fold_some_id rs { fid := none, attempt := 0, sleep_seconds := 0 } rfl hs

/-- Witness for C3: one exception then one statusless return leave the
loop running with one sleep; a run that does receive an ID has one in
its stream. -/
theorem upload_retry_until_file_id_witness :
    (upload_run [ChunkResult.exc ("x"), ChunkResult.ok false none]).fid = none ∧
    (upload_run [ChunkResult.exc ("x"), ChunkResult.ok false none]).attempt =
      ([ChunkResult.exc ("x"), ChunkResult.ok false none] : List ChunkResult).length ∧
    ∃ r ∈ ([ChunkResult.ok true (some (some ("f")))] : List ChunkResult),
      has_file_id r = true :=
  ⟨(upload_retry_until_file_id.2.1 [ChunkResult.exc ("x"), ChunkResult.ok false none]
      (by decide)).1,
   (upload_retry_until_file_id.2.1 [ChunkResult.exc ("x"), ChunkResult.ok false none]
      (by decide)).2,
   upload_retry_until_file_id.2.2 [ChunkResult.ok true (some (some ("f")))] (by decide)⟩

/-! Claim C4. -/

/-- C4 counterexample: the render worker delivers its result to the UI
also by directly scheduling a UI callback — `_run_conversion` ends with
`self.root.after(0, lambda: self._play(out_path))` — which is not a
polled flag or progress-float write. -/
theorem render_worker_schedules_ui_callback :
    CommAction.scheduleUICallback 0 ∈ (run_conversion (Except.ok ()) (Except.ok ("o"))).2 ∧
    is_flag_or_float_write (CommAction.scheduleUICallback 0) = false := by
  decide

/-- No iteration of the chunk loop emits a UI-callback scheduling. -/
theorem iter_actions_no_callback (r : ChunkResult) :
    (upload_iter_actions r).all (fun a => !is_schedule_ui_callback a) = true := by
  cases r with
  | exc m => rfl
  | ok st resp =>
    cases st <;>
      (cases resp with
       | none => rfl
       | some o => cases o <;> rfl)

/-- The whole chunk loop emits no UI-callback scheduling. -/
theorem loop_actions_no_callback (rs : List ChunkResult) :
    (start_upload_loop_actions rs).all (fun a => !is_schedule_ui_callback a) = true := by
  induction rs with
  | nil => rfl
  | cons r rest ih =>
    simp only [start_upload_loop_actions, List.all_append]
    rw [iter_actions_no_callback r, Bool.true_and]
    split
    · rfl
    · exact ih

/-- Nothing in `_start_upload` schedules a UI callback. -/
theorem upload_actions_no_callback_all (rs : List ChunkResult) :
    (start_upload_actions rs).all (fun a => !is_schedule_ui_callback a) = true := by
  unfold start_upload_actions
  rw [List.all_append, loop_actions_no_callback rs]
  rfl

/-- Once a result carrying a file ID arrives, the loop's tail publishes
the `upload_done` flag. -/
theorem upload_done_flag_mem (rs : List ChunkResult)
    (hex : ∃ r ∈ rs, has_file_id r = true) :
    CommAction.setFlag ("upload_done") ∈ start_upload_loop_actions rs := by
  induction rs with
  | nil =>
    obtain ⟨r, hr, _⟩ := hex
    exact absurd hr (by simp)
  | cons r rest ih =>
    obtain ⟨x, hx, hxx⟩ := hex
    simp only [start_upload_loop_actions]
    rw [List.mem_append]
    right
    by_cases hr : has_file_id r = true
    · rw [if_pos hr]
      simp [upload_post_actions]
    · rw [if_neg hr]
      rcases List.mem_cons.mp hx with rfl | hx'
      · exact absurd hxx hr
      · exact ih ⟨x, hx', hxx⟩

/-- C4 (amended): both completion flags are communicated through fields
polled by fixed 1000 ms UI timers (`_schedule_fake_progress` polls
`conversion_done`, `_update_upload_status` polls `upload_done`), and the
upload worker indeed schedules no UI callback; but the render worker
additionally delivers its result by directly scheduling a UI callback
with `root.after(0, ...)`. -/
theorem completion_polling_and_callback :
    (∀ out : String,
       CommAction.setFlag ("conversion_done") ∈ (run_conversion (Except.ok ()) (Except.ok out)).2 ∧
       CommAction.scheduleUICallback 0 ∈ (run_conversion (Except.ok ()) (Except.ok out)).2) ∧
    (∀ rs : List ChunkResult, ∀ a ∈ start_upload_actions rs,
       is_schedule_ui_callback a = false) ∧
    (∀ rs : List ChunkResult, (∃ r ∈ rs, has_file_id r = true) →
       CommAction.setFlag ("upload_done") ∈ start_upload_actions rs) ∧
    schedule_fake_progress_next false = some 1000 ∧
    schedule_fake_progress_next true = none ∧
    update_upload_status_next false = some 1000 ∧
    update_upload_status_next true = none := by
  refine ⟨?_, ?_, ?_, rfl, rfl, rfl, rfl⟩
  · intro out
    constructor
    · simp [run_conversion]
    · simp [run_conversion]
  · intro rs a ha
    have h := upload_actions_no_callback_all rs
    rw [List.all_eq_true] at h
    have := h a ha
    rwa [Bool.not_eq_true'] at this
  · intro rs hex
    unfold start_upload_actions
    rw [List.mem_append]
    exact Or.inr (upload_done_flag_mem rs hex)

/-- Witness for the amended C4 at a one-result stream carrying an ID and
at the first setup action. -/
theorem completion_polling_and_callback_witness :
    (CommAction.setFlag ("conversion_done") ∈
       (run_conversion (Except.ok ()) (Except.ok ("o"))).2 ∧
     CommAction.scheduleUICallback 0 ∈
       (run_conversion (Except.ok ()) (Except.ok ("o"))).2) ∧
    is_schedule_ui_callback (CommAction.externalCall ("build drive service")) = false ∧
    CommAction.setFlag ("upload_done") ∈
      start_upload_actions [ChunkResult.ok true (some (some ("f")))] :=
  ⟨completion_polling_and_callback.1 ("o"),
   completion_polling_and_callback.2.1 [] (CommAction.externalCall ("build drive service"))
     (by decide),
   completion_polling_and_callback.2.2.1 [ChunkResult.ok true (some (some ("f")))]
     (by decide)⟩

/-! Claim C5. -/

/-- C5: the guard socket prevents double launch — if binding localhost
TCP port 65432 raises an OS error the module exits with the message
`Already running.` before any pipeline work, and any successful run of
the top level had a successful bind as its first action, preceding the
playback loops and the app construction. -/
theorem guard_socket_prevents_double_launch :
    module_toplevel true = Except.error ("Already running.") ∧
    (∀ (b : Bool) (acts : List TopAction), module_toplevel b = Except.ok acts →
       b = false ∧
       acts.head? = some (TopAction.bindGuardPort ("localhost") 65432) ∧
       TopAction.startSecondaryLoops ∈ acts ∧ TopAction.constructApp ∈ acts) := by
  constructor
  · rfl
  · intro b acts h
    cases b with
    | false =>
      obtain rfl := Except.ok.inj h
      exact ⟨rfl, rfl, by decide, by decide⟩
    | true =>
      exact absurd h (by simp [module_toplevel])

/-- Witness for C5 at the successful-bind run of the top level. -/
theorem guard_socket_prevents_double_launch_witness :
    TopAction.startSecondaryLoops ∈
      [TopAction.bindGuardPort ("localhost") 65432, TopAction.importVlcAndEnumerate,
       TopAction.startSecondaryLoops, TopAction.constructApp, TopAction.mainloop] :=
  (guard_socket_prevents_double_launch.2 false
     [TopAction.bindGuardPort ("localhost") 65432, TopAction.importVlcAndEnumerate,
      TopAction.startSecondaryLoops, TopAction.constructApp, TopAction.mainloop] rfl).2.2.1

end ConvertUpload
